import Mathlib

/-!
Verification of the battery cell charging/discharging simulation core.

The development shallowly embeds the core of the dashboard scripts:
the per-cell electrical model (`get_cell_specs`, `calculate_soc_percentage`,
`update_cell_calculations`), the status classifier (`get_cell_status`), and
the task-sequence state machine (`start_task_sequence`, `execute_current_task`,
the auto-update step of `main`, here called `tick`, `stop_all_tasks`).

Python floats are idealized as rationals (ℚ); Python's `round(x, 2)` (banker's
rounding to two decimals) is embedded as `round2`; the ambient randomness
(`random.uniform`) is injected as an explicit oracle parameter; wall-clock
times are integer seconds.
-/

/-- Specification record returned by `get_cell_specs`. -/
structure CellSpecs where
  nominal_voltage : ℚ
  min_voltage : ℚ
  max_voltage : ℚ
  nominal_capacity : ℚ
deriving DecidableEq, Repr

/-- Python's `str.lower()` on the tag strings in use (ASCII): lower-case
every character. -/
def py_lower (s : String) : String :=
  String.mk (s.data.map Char.toLower)

/-- `get_cell_specs(cell_type)`: the fixed chemistry table. Any tag other than
"lfp"/"nmc" (case-insensitive) falls through to the final `else` branch. -/
def get_cell_specs (cell_type : String) : CellSpecs :=
  if py_lower cell_type = "lfp" then
    { nominal_voltage := 3.2, min_voltage := 2.8, max_voltage := 3.6, nominal_capacity := 100 }
  else if py_lower cell_type = "nmc" then
    { nominal_voltage := 3.6, min_voltage := 3.2, max_voltage := 4.0, nominal_capacity := 120 }
  else
    { nominal_voltage := 3.7, min_voltage := 3.0, max_voltage := 4.2, nominal_capacity := 110 }

/-- `calculate_soc_percentage(voltage, min_voltage, max_voltage)`:
`max(0, min(100, ((voltage - min_voltage) / (max_voltage - min_voltage)) * 100))`. -/
def calculate_soc_percentage (voltage min_voltage max_voltage : ℚ) : ℚ :=
  max 0 (min 100 ((voltage - min_voltage) / (max_voltage - min_voltage) * 100))

/-- `get_cell_status(current, task_running)` of the enhanced dashboard:
returns the (status text, css class) pair determined by the current. -/
def get_cell_status (current : ℚ) (task_running : Bool) : String × String :=
  if task_running then
    if current > 0.1 then ("Task: Charging", "task")
    else if current < -0.1 then ("Task: Discharging", "task")
    else ("Task: Idle", "task")
  else
    if current > 0.1 then ("Charging", "charging")
    else if current < -0.1 then ("Discharging", "discharging")
    else ("Idle", "idle")

/-- Python's banker's rounding of a rational to the nearest integer
(ties go to the even integer). -/
def roundHalfEven (x : ℚ) : ℤ :=
  let f := ⌊x⌋
  if x - f < 1/2 then f
  else if 1/2 < x - f then f + 1
  else if Even f then f else f + 1

/-- Python's `round(x, 2)`: banker's rounding to two decimal places. -/
def round2 (x : ℚ) : ℚ := (roundHalfEven (x * 100) : ℚ) / 100

/-- One battery cell, with the fields stored in `cells_data`. -/
structure Cell where
  voltage : ℚ
  current : ℚ
  temp : ℚ
  capacity : ℚ
  min_voltage : ℚ
  max_voltage : ℚ
  nominal_voltage : ℚ
  nominal_capacity : ℚ
  soc : ℚ
  cell_type : String
deriving DecidableEq, Repr

/-- `update_cell_calculations(cell_key)`: recomputes `capacity` from the
pre-step voltage, moves `voltage` by `min(0.1, |current| * 0.02)` towards the
charging/discharging bound, recomputes `soc`, and (only when `|current| > 1`)
perturbs `temp` by the random draw `temp_delta`, clamped to `[20, 60]`. -/
def update_cell_calculations (cell : Cell) (temp_delta : ℚ) : Cell :=
  let capacity := round2 (cell.voltage * |cell.current|)
  let voltage :=
    if cell.current > 0 then
      min cell.max_voltage (cell.voltage + min 0.1 (cell.current * 0.02))
    else if cell.current < 0 then
      max cell.min_voltage (cell.voltage - min 0.1 (|cell.current| * 0.02))
    else cell.voltage
  let soc := calculate_soc_percentage voltage cell.min_voltage cell.max_voltage
  let temp :=
    if |cell.current| > 1 then max 20 (min 60 (cell.temp + temp_delta))
    else cell.temp
  { cell with capacity := capacity, voltage := voltage, soc := soc, temp := temp }

/-- The manual-control write path: assign `current` and run
`update_cell_calculations`. -/
def apply_current (cell : Cell) (value : ℚ) (temp_delta : ℚ) : Cell :=
  update_cell_calculations { cell with current := value } temp_delta

/-- The `for cell_key in cells_data` loops: set every cell's `current` to
`value` and run `update_cell_calculations` on it, drawing one random
temperature perturbation per cell from the oracle `rng`. -/
def set_all_current : List (String × Cell) → ℚ → (ℕ → ℚ) → List (String × Cell)
  | [], _, _ => []
  | (k, c) :: rest, value, rng =>
      (k, update_cell_calculations { c with current := value } (rng 0)) ::
        set_all_current rest value (fun i => rng (i + 1))

/-- One saved task (`tasks_data` entry): its `task_type` tag, the optional
`cc_current` field, and its `time_seconds` duration. -/
structure TaskData where
  task_type : String
  cc_current : Option ℚ
  time_seconds : ℤ
deriving DecidableEq, Repr

/-- One `task_history` entry: `{timestamp, task, type, status}` (the
timestamp idealized to the integer instant of the event). -/
structure HistoryEntry where
  timestamp : ℤ
  task : String
  task_type : String
  status : String
deriving DecidableEq, Repr

/-- The session state the core mutates: the cell pool, the saved task
sequence, the run flag, the task cursor, the active task's start instant,
and the task history log. -/
structure SessionState where
  cells_data : List (String × Cell)
  tasks_data : List TaskData
  task_running : Bool
  current_task_index : ℕ
  task_start_time : Option ℤ
  task_history : List HistoryEntry
deriving DecidableEq, Repr

/-- `apply_cc_cv_task`: every cell's current becomes the task's
`cc_current` (dictionary default `2.0`). -/
def apply_cc_cv_task (td : TaskData) (cells : List (String × Cell)) (rng : ℕ → ℚ) :
    List (String × Cell) :=
  set_all_current cells (td.cc_current.getD 2) rng

/-- `apply_idle_task`: every cell's current becomes `0`. -/
def apply_idle_task (cells : List (String × Cell)) (rng : ℕ → ℚ) :
    List (String × Cell) :=
  set_all_current cells 0 rng

/-- `apply_cc_cd_task`: every cell's current becomes the task's
`cc_current` (dictionary default `-2.0`). -/
def apply_cc_cd_task (td : TaskData) (cells : List (String × Cell)) (rng : ℕ → ℚ) :
    List (String × Cell) :=
  set_all_current cells (td.cc_current.getD (-2)) rng

/-- `execute_current_task()`: if the cursor is past the end, clear the run
flag and reset the cursor; otherwise apply the active task's effect to every
cell and append a `started` history entry. -/
def execute_current_task (s : SessionState) (now : ℤ) (rng : ℕ → ℚ) : SessionState :=
  if s.tasks_data.length ≤ s.current_task_index then
    { s with task_running := false, current_task_index := 0 }
  else
    match s.tasks_data.get? s.current_task_index with
    | none => s
    | some td =>
      let cells :=
        if td.task_type = "CC_CV" then apply_cc_cv_task td s.cells_data rng
        else if td.task_type = "IDLE" then apply_idle_task s.cells_data rng
        else if td.task_type = "CC_CD" then apply_cc_cd_task td s.cells_data rng
        else s.cells_data
      { s with
          cells_data := cells,
          task_history := s.task_history ++
            [{ timestamp := now,
               task := "task_" ++ toString (s.current_task_index + 1),
               task_type := td.task_type,
               status := "started" }] }

/-- `start_task_sequence()`: error-and-return on an empty sequence, else set
the run flag, reset the cursor, stamp the start time, and execute task 0. -/
def start_task_sequence (s : SessionState) (now : ℤ) (rng : ℕ → ℚ) : SessionState :=
  if s.tasks_data = [] then s
  else
    execute_current_task
      { s with task_running := true, current_task_index := 0, task_start_time := some now }
      now rng

/-- `stop_all_tasks()`: clear the run flag, reset the cursor, and set every
cell's current to `0` (running the cell update on each). -/
def stop_all_tasks (s : SessionState) (rng : ℕ → ℚ) : SessionState :=
  { s with
      task_running := false,
      current_task_index := 0,
      cells_data := set_all_current s.cells_data 0 rng }

/-- The Pause button handler: it only clears the run flag. -/
def pause_tasks (s : SessionState) : SessionState :=
  { s with task_running := false }

/-- The Start button is rendered with `disabled = task_running`: starting is
permitted exactly when no run is in progress. -/
def start_button_enabled (s : SessionState) : Bool :=
  ! s.task_running

/-- The auto-update step at the top of `main()`: when a run is in progress
and a start time is recorded, compare the elapsed seconds against the active
task's `time_seconds` (dictionary default `60`); on expiry advance the
cursor and restamp the start time, then either finish the run (cursor past
the end: clear the run flag and reset the cursor, appending nothing) or
execute the new active task. -/
def tick (s : SessionState) (now : ℤ) (rng : ℕ → ℚ) : SessionState :=
  if s.task_running then
    match s.task_start_time with
    | none => s
    | some start =>
      let elapsed := now - start
      let dur : ℤ :=
        match s.tasks_data.get? s.current_task_index with
        | some td => td.time_seconds
        | none => 60
      if dur ≤ elapsed then
        let s₁ : SessionState :=
          { s with current_task_index := s.current_task_index + 1, task_start_time := some now }
        if s₁.tasks_data.length ≤ s₁.current_task_index then
          { s₁ with task_running := false, current_task_index := 0 }
        else
          execute_current_task s₁ now rng
      else s
  else s

/-- Iterated cell updates, one oracle draw per step. -/
def update_iter (cell : Cell) : List ℚ → Cell
  | [] => cell
  | d :: ds => update_iter (update_cell_calculations cell d) ds

/-- Modelled from the spec: the repository exposes manual per-cell current
only through a `number_input` widget declared in `control_panel` with
`min_value = -10.0` and `max_value = 10.0`; the rejection of out-of-range
values happens inside the widget library, not in repository code under
`src/`. Following the spec's `setManualCurrent`: fail with `OutOfRangeError`
when `|value| > 10`, otherwise write the current to the addressed cell and
run the cell update. -/
def set_manual_current (cells : List (String × Cell)) (cell_key : String)
    (value : ℚ) (temp_delta : ℚ) : Except String (List (String × Cell)) :=
  if 10 < |value| then Except.error "OutOfRangeError"
  else Except.ok (cells.map fun kc =>
    if kc.1 = cell_key then (kc.1, update_cell_calculations { kc.2 with current := value } temp_delta)
    else kc)

/-- A concrete LFP cell whose stored `soc` agrees with
`calculate_soc_percentage` (as every cell created by `setup_cells` does):
voltage 3.20 V inside [2.80, 3.60], current 0, soc 50 %. -/
def cellA : Cell :=
  { voltage := 3.2, current := 0, temp := 30, capacity := 0, min_voltage := 2.8,
    max_voltage := 3.6, nominal_voltage := 3.2, nominal_capacity := 100, soc := 50,
    cell_type := "LFP" }

/-- A constant randomness oracle (every temperature draw is `0`). -/
def rng0 : ℕ → ℚ := fun _ => 0

/-- The task sequence of the sequencing example:
`[CC_CV(duration 10 s, cc_current 2 A), IDLE(duration 5 s)]`. -/
def c2_tasks : List TaskData :=
  [{ task_type := "CC_CV", cc_current := some 2, time_seconds := 10 },
   { task_type := "IDLE", cc_current := none, time_seconds := 5 }]

/-- A fresh session holding the given cell pool and the example task
sequence, before any start. -/
def c2_init (cells : List (String × Cell)) : SessionState :=
  { cells_data := cells, tasks_data := c2_tasks, task_running := false,
    current_task_index := 0, task_start_time := none, task_history := [] }

/- ### Helper lemmas -/

/-- The cell update never touches the `current` field. -/
lemma update_cell_calculations_current (cell : Cell) (d : ℚ) :
    (update_cell_calculations cell d).current = cell.current := rfl

/-- The cell update never touches the voltage bounds. -/
lemma update_cell_calculations_min_voltage (cell : Cell) (d : ℚ) :
    (update_cell_calculations cell d).min_voltage = cell.min_voltage := rfl

lemma update_cell_calculations_max_voltage (cell : Cell) (d : ℚ) :
    (update_cell_calculations cell d).max_voltage = cell.max_voltage := rfl

/-- Core invariant: one cell update keeps the voltage inside
`[min_voltage, max_voltage]` whenever it started there, for any current. -/
lemma update_voltage_bounds (cell : Cell) (d : ℚ)
    (hmin : cell.min_voltage ≤ cell.voltage) (hmax : cell.voltage ≤ cell.max_voltage) :
    cell.min_voltage ≤ (update_cell_calculations cell d).voltage ∧
      (update_cell_calculations cell d).voltage ≤ cell.max_voltage := by
  simp only [update_cell_calculations]
  split_ifs with h1 h2
  · have hd : (0:ℚ) ≤ min 0.1 (cell.current * 0.02) :=
      le_min (by norm_num) (by positivity)
    exact ⟨le_min (le_trans hmin hmax) (by linarith), min_le_left _ _⟩
  · have hd : (0:ℚ) ≤ min 0.1 (|cell.current| * 0.02) :=
      le_min (by norm_num) (by positivity)
    exact ⟨le_max_left _ _, max_le (le_trans hmin hmax) (by linarith)⟩
  · exact ⟨hmin, hmax⟩

/-- The bulk current write keeps the pool size. -/
lemma set_all_current_length (cells : List (String × Cell)) (value : ℚ) (rng : ℕ → ℚ) :
    (set_all_current cells value rng).length = cells.length := by
  induction cells generalizing rng with
  | nil => rfl
  | cons kc rest ih => simpa [set_all_current] using ih _

/-- After the bulk current write, every cell carries the written current. -/
lemma set_all_current_map_current (cells : List (String × Cell)) (value : ℚ) (rng : ℕ → ℚ) :
    (set_all_current cells value rng).map (fun kc => kc.2.current) =
      List.replicate cells.length value := by
  induction cells generalizing rng with
  | nil => rfl
  | cons kc rest ih =>
      simp [set_all_current, List.replicate, update_cell_calculations_current]
      exact ih _

/-- With zero current and a stored `soc` consistent with the voltage, one
cell update only rewrites `capacity` to `0`. -/
lemma update_cell_calculations_zero_current (cell : Cell) (d : ℚ)
    (h0 : cell.current = 0)
    (hs : cell.soc = calculate_soc_percentage cell.voltage cell.min_voltage cell.max_voltage) :
    update_cell_calculations cell d = { cell with capacity := 0 } := by
  unfold update_cell_calculations
  rw [h0]
  norm_num [round2, roundHalfEven, hs.symm]

/-- Iterating the zero-current update any positive number of times only
rewrites `capacity` to `0`. -/
lemma update_iter_zero_current (ds : List ℚ) (cell : Cell)
    (h0 : cell.current = 0)
    (hs : cell.soc = calculate_soc_percentage cell.voltage cell.min_voltage cell.max_voltage)
    (hne : ds ≠ []) :
    update_iter cell ds = { cell with capacity := 0 } := by
  induction ds generalizing cell with
  | nil => exact absurd rfl hne
  | cons d ds ih =>
      show update_iter (update_cell_calculations cell d) ds = { cell with capacity := 0 }
      rw [update_cell_calculations_zero_current cell d h0 hs]
      cases ds with
      | nil => rfl
      | cons d₂ ds₂ => exact ih { cell with capacity := 0 } h0 hs (by simp)

/- ### Claim theorems -/

/-- C1: for every cell whose voltage lies in `[min_voltage, max_voltage]` and
every permitted current value (`|value| ≤ 10`), applying that current and
running one update step leaves the voltage inside
`[min_voltage, max_voltage]`. -/
theorem apply_current_voltage_bounds (cell : Cell) (value d : ℚ)
    (_hval : |value| ≤ 10)
    (hmin : cell.min_voltage ≤ cell.voltage) (hmax : cell.voltage ≤ cell.max_voltage) :
    cell.min_voltage ≤ (apply_current cell value d).voltage ∧
      (apply_current cell value d).voltage ≤ cell.max_voltage :=
  update_voltage_bounds { cell with current := value } d hmin hmax

/-- C1 witness: the invariant at a concrete cell (voltage 3.2 ∈ [2.8, 3.6])
and concrete permitted current 5. -/
theorem apply_current_voltage_bounds_witness :
    |(5:ℚ)| ≤ 10 ∧ cellA.min_voltage ≤ cellA.voltage ∧ cellA.voltage ≤ cellA.max_voltage ∧
      (cellA.min_voltage ≤ (apply_current cellA 5 0).voltage ∧
        (apply_current cellA 5 0).voltage ≤ cellA.max_voltage) :=
  ⟨by norm_num, by norm_num [cellA], by norm_num [cellA],
    apply_current_voltage_bounds cellA 5 0 (by norm_num)
      (by norm_num [cellA]) (by norm_num [cellA])⟩

/-- C2 counterexample: on the sequence
`[CC_CV(duration 10, cc_current 2), IDLE(duration 5)]` started at `t = 0`
over a one-cell pool, `tick(t=10)` appends a history entry whose event is
`"started"`, not `"advanced"` (the history after it reads
`["started", "started"]`), and `tick(t=15)` ends the run without appending
any entry at all — no `"completed"` entry exists. -/
theorem task_sequence_events_counterexample :
    (tick (start_task_sequence (c2_init [("cell_1_lfp", cellA)]) 0 rng0) 10 rng0).task_history.map
        (fun e => e.status) = ["started", "started"] ∧
    (tick (tick (tick (start_task_sequence (c2_init [("cell_1_lfp", cellA)]) 0 rng0) 10 rng0)
        14 rng0) 15 rng0).task_history =
      (tick (start_task_sequence (c2_init [("cell_1_lfp", cellA)]) 0 rng0) 10 rng0).task_history ∧
    (tick (tick (tick (start_task_sequence (c2_init [("cell_1_lfp", cellA)]) 0 rng0) 10 rng0)
        14 rng0) 15 rng0).task_running = false :=
  ⟨rfl, rfl, rfl⟩

/-- C2 (amended): for the sequence
`[CC_CV(duration 10, cc_current 2), IDLE(duration 5)]` started at `t = 0`
over any cell pool: `tick(t=10)` advances the task index to 1, sets every
cell's current to 0, and appends a history entry with event `started` for
the new task (the code logs every task activation as `started`; it has no
`advanced` event); `tick(t=14)` is a no-op; `tick(t=15)` ends the run —
`task_running` becomes false and the index resets to 0 — without appending
any history entry (the code has no `completed` event and no distinct
completed state). -/
theorem task_sequence_trace (cells : List (String × Cell)) (rng : ℕ → ℚ) :
    (tick (start_task_sequence (c2_init cells) 0 rng) 10 rng).current_task_index = 1 ∧
    (tick (start_task_sequence (c2_init cells) 0 rng) 10 rng).cells_data.map
        (fun kc => kc.2.current) = List.replicate cells.length 0 ∧
    (tick (start_task_sequence (c2_init cells) 0 rng) 10 rng).task_history =
      [{ timestamp := 0, task := "task_1", task_type := "CC_CV", status := "started" },
       { timestamp := 10, task := "task_2", task_type := "IDLE", status := "started" }] ∧
    tick (tick (start_task_sequence (c2_init cells) 0 rng) 10 rng) 14 rng =
      tick (start_task_sequence (c2_init cells) 0 rng) 10 rng ∧
    (tick (tick (tick (start_task_sequence (c2_init cells) 0 rng) 10 rng) 14 rng) 15
        rng).task_running = false ∧
    (tick (tick (tick (start_task_sequence (c2_init cells) 0 rng) 10 rng) 14 rng) 15
        rng).current_task_index = 0 ∧
    (tick (tick (tick (start_task_sequence (c2_init cells) 0 rng) 10 rng) 14 rng) 15
        rng).task_history =
      (tick (start_task_sequence (c2_init cells) 0 rng) 10 rng).task_history := by
  have key1 : ("task_" ++ toString (0 + 1 : Nat) : String) = "task_1" := by exact rfl
  have key2 : ("task_" ++ toString (1 + 1 : Nat) : String) = "task_2" := by exact rfl
  refine ⟨by exact rfl, ?_, ?_, by exact rfl, by exact rfl, by exact rfl, by exact rfl⟩
  · show (set_all_current (set_all_current cells 2 rng) 0 rng).map (fun kc => kc.2.current) =
      List.replicate cells.length 0
    rw [set_all_current_map_current, set_all_current_length]
  · rw [← key1, ← key2]
    exact rfl

/-- C3: for `min_voltage < max_voltage`, the SOC function returns a value in
`[0, 100]`, equals the clamped linear interpolation, and is monotone
non-decreasing in the voltage. -/
theorem soc_range_and_monotone (voltage v₂ min_voltage max_voltage : ℚ)
    (h : min_voltage < max_voltage) :
    0 ≤ calculate_soc_percentage voltage min_voltage max_voltage ∧
    calculate_soc_percentage voltage min_voltage max_voltage ≤ 100 ∧
    calculate_soc_percentage voltage min_voltage max_voltage =
      max 0 (min 100 ((voltage - min_voltage) / (max_voltage - min_voltage) * 100)) ∧
    (voltage ≤ v₂ →
      calculate_soc_percentage voltage min_voltage max_voltage ≤
        calculate_soc_percentage v₂ min_voltage max_voltage) := by
  refine ⟨le_max_left _ _, max_le (by norm_num) (min_le_left _ _), rfl, ?_⟩
  intro hv
  unfold calculate_soc_percentage
  have hpos : 0 < max_voltage - min_voltage := by linarith
  have hx : (voltage - min_voltage) / (max_voltage - min_voltage) * 100 ≤
      (v₂ - min_voltage) / (max_voltage - min_voltage) * 100 := by
    have h1 : (voltage - min_voltage) / (max_voltage - min_voltage) ≤
        (v₂ - min_voltage) / (max_voltage - min_voltage) :=
      (div_le_div_iff_of_pos_right hpos).mpr (by linarith)
    nlinarith
  exact max_le_max le_rfl (min_le_min le_rfl hx)

/-- C3 witness: the SOC properties at voltage 3.2 ≤ 3.3 on the LFP range
[2.8, 3.6]. -/
theorem soc_range_and_monotone_witness :
    (2.8:ℚ) < 3.6 ∧
    (0 ≤ calculate_soc_percentage 3.2 2.8 3.6 ∧
      calculate_soc_percentage 3.2 2.8 3.6 ≤ 100 ∧
      calculate_soc_percentage 3.2 2.8 3.6 =
        max 0 (min 100 ((3.2 - 2.8) / (3.6 - 2.8) * 100)) ∧
      ((3.2:ℚ) ≤ 3.3 →
        calculate_soc_percentage 3.2 2.8 3.6 ≤ calculate_soc_percentage 3.3 2.8 3.6)) :=
  ⟨by norm_num, soc_range_and_monotone 3.2 3.3 2.8 3.6 (by norm_num)⟩

/-- C4: the cell `{voltage 3.20, min 2.80, max 3.60}` with current set to
`+5` yields, after one update, `capacity` (instantaneous power) `16.00`,
`voltage` `3.30` and `soc` `62.5` — whatever the temperature draw. -/
theorem example_update_step (d : ℚ) :
    (apply_current cellA 5 d).capacity = 16 ∧
    (apply_current cellA 5 d).voltage = 3.3 ∧
    (apply_current cellA 5 d).soc = 62.5 := by
  refine ⟨?_, ?_, ?_⟩ <;>
    simp [apply_current, update_cell_calculations, cellA, round2, roundHalfEven,
      calculate_soc_percentage] <;> norm_num

/-- C5: `stop_all_tasks` invoked on any session state — whatever the run
state — clears the run flag, resets the task index to `0`, and sets every
cell's current to `0`; it is a total function, so it always succeeds,
unconditionally. -/
theorem stop_all_tasks_resets (s : SessionState) (rng : ℕ → ℚ) :
    (stop_all_tasks s rng).task_running = false ∧
    (stop_all_tasks s rng).current_task_index = 0 ∧
    (stop_all_tasks s rng).cells_data.map (fun kc => kc.2.current) =
      List.replicate s.cells_data.length 0 := by
  refine ⟨rfl, rfl, ?_⟩
  show (set_all_current s.cells_data 0 rng).map (fun kc => kc.2.current) =
    List.replicate s.cells_data.length 0
  rw [set_all_current_map_current]

/-- C6 counterexample: cell initialization does not fail on an unrecognized
chemistry tag. `get_cell_specs` is total: on the unrecognized tag
`"plutonium"` it returns the Generic table (3.0/4.2/3.7 V, 110 Ah) instead
of raising any `InvalidChemistryError`. -/
theorem get_cell_specs_counterexample :
    get_cell_specs "plutonium" =
      { nominal_voltage := 3.7, min_voltage := 3.0, max_voltage := 4.2,
        nominal_capacity := 110 } := by
  exact rfl

/-- C6 (amended): `get_cell_specs` never fails; recognized tags get the spec
table (LFP: 2.8/3.6/3.2 V · 100 Ah, NMC: 3.2/4.0/3.6 V · 120 Ah) and every
other tag — `"LTO"`, `"Generic"` or anything unrecognized — gets the
Generic/default table (3.0/4.2/3.7 V · 110 Ah). -/
theorem get_cell_specs_table :
    (∀ ct : String, py_lower ct = "lfp" →
      get_cell_specs ct =
        { nominal_voltage := 3.2, min_voltage := 2.8, max_voltage := 3.6,
          nominal_capacity := 100 }) ∧
    (∀ ct : String, py_lower ct = "nmc" →
      get_cell_specs ct =
        { nominal_voltage := 3.6, min_voltage := 3.2, max_voltage := 4.0,
          nominal_capacity := 120 }) ∧
    (∀ ct : String, py_lower ct ≠ "lfp" → py_lower ct ≠ "nmc" →
      get_cell_specs ct =
        { nominal_voltage := 3.7, min_voltage := 3.0, max_voltage := 4.2,
          nominal_capacity := 110 }) := by
  refine ⟨fun ct h => ?_, fun ct h => ?_, fun ct h1 h2 => ?_⟩
  · simp [get_cell_specs, h]
  · simp [get_cell_specs, h]
  · simp [get_cell_specs, h1, h2]

/-- C6 witness: the table at the concrete tags `"LFP"`, `"NMC"`, `"LTO"`. -/
theorem get_cell_specs_table_witness :
    get_cell_specs "LFP" =
      { nominal_voltage := 3.2, min_voltage := 2.8, max_voltage := 3.6,
        nominal_capacity := 100 } ∧
    get_cell_specs "NMC" =
      { nominal_voltage := 3.6, min_voltage := 3.2, max_voltage := 4.0,
        nominal_capacity := 120 } ∧
    get_cell_specs "LTO" =
      { nominal_voltage := 3.7, min_voltage := 3.0, max_voltage := 4.2,
        nominal_capacity := 110 } :=
  ⟨get_cell_specs_table.1 "LFP" (by decide),
   get_cell_specs_table.2.1 "NMC" (by decide),
   get_cell_specs_table.2.2 "LTO" (by decide) (by decide)⟩

/-- C7: setting a manual current with `|value| > 10` fails with
`OutOfRangeError`; no cell state is produced by the failing call, so the
target cell is left unmodified. -/
theorem set_manual_current_out_of_range (cells : List (String × Cell))
    (cell_key : String) (value d : ℚ) (h : 10 < |value|) :
    set_manual_current cells cell_key value d = Except.error "OutOfRangeError" := by
  unfold set_manual_current
  rw [if_pos h]

/-- C7 witness: the failure at the concrete value `11`. -/
theorem set_manual_current_out_of_range_witness :
    (10:ℚ) < |(11:ℚ)| ∧
    set_manual_current [("cell_1_lfp", cellA)] "cell_1_lfp" 11 0 =
      Except.error "OutOfRangeError" :=
  ⟨by norm_num,
   set_manual_current_out_of_range [("cell_1_lfp", cellA)] "cell_1_lfp" 11 0 (by norm_num)⟩

/-- C8: the status classifier is a pure function of the current and the
task-driven flag: `current > 0.1` yields the Charging status,
`current < -0.1` the Discharging status, and any current in `[-0.1, 0.1]`
the Idle status (with the `Task:` wording when the flag is set). -/
theorem get_cell_status_classification (current : ℚ) (t : Bool) :
    (0.1 < current →
      get_cell_status current t =
        if t then ("Task: Charging", "task") else ("Charging", "charging")) ∧
    (current < -0.1 →
      get_cell_status current t =
        if t then ("Task: Discharging", "task") else ("Discharging", "discharging")) ∧
    (-0.1 ≤ current → current ≤ 0.1 →
      get_cell_status current t =
        if t then ("Task: Idle", "task") else ("Idle", "idle")) := by
  refine ⟨fun h => ?_, fun h => ?_, fun h1 h2 => ?_⟩
  · have h' : ¬ current < -0.1 := by linarith
    cases t <;> simp [get_cell_status, h, h']
  · have h' : ¬ (0.1:ℚ) < current := by linarith
    cases t <;> simp [get_cell_status, h, h']
  · have h1' : ¬ (0.1:ℚ) < current := by linarith
    have h2' : ¬ current < -0.1 := by linarith
    cases t <;> simp [get_cell_status, h1', h2']

/-- C8 witness: the classifier at the concrete currents 5, -5 and 0. -/
theorem get_cell_status_classification_witness :
    get_cell_status 5 false = ("Charging", "charging") ∧
    get_cell_status (-5) false = ("Discharging", "discharging") ∧
    get_cell_status 0 true = ("Task: Idle", "task") :=
  ⟨(get_cell_status_classification 5 false).1 (by norm_num),
   (get_cell_status_classification (-5) false).2.1 (by norm_num),
   (get_cell_status_classification 0 true).2.2 (by norm_num) (by norm_num)⟩

/-- C9: for every cell whose stored `soc` agrees with the SOC function of
its voltage (as holds for every cell the program creates), any positive
number of repeated update steps with `current = 0` leaves `voltage`, `soc`
and `temperature` unchanged and sets `capacity` (instantaneous power)
to `0`. -/
theorem idle_update_frame (cell : Cell) (ds : List ℚ)
    (h0 : cell.current = 0)
    (hs : cell.soc = calculate_soc_percentage cell.voltage cell.min_voltage cell.max_voltage)
    (hne : ds ≠ []) :
    (update_iter cell ds).voltage = cell.voltage ∧
    (update_iter cell ds).soc = cell.soc ∧
    (update_iter cell ds).temp = cell.temp ∧
    (update_iter cell ds).capacity = 0 := by
  rw [update_iter_zero_current ds cell h0 hs hne]
  exact ⟨rfl, rfl, rfl, rfl⟩

/-- C9 witness: three idle steps on a concrete consistent cell. -/
theorem idle_update_frame_witness :
    cellA.current = 0 ∧
    cellA.soc = calculate_soc_percentage cellA.voltage cellA.min_voltage cellA.max_voltage ∧
    ([(0:ℚ), 1, -1] ≠ []) ∧
    ((update_iter cellA [0, 1, -1]).voltage = cellA.voltage ∧
      (update_iter cellA [0, 1, -1]).soc = cellA.soc ∧
      (update_iter cellA [0, 1, -1]).temp = cellA.temp ∧
      (update_iter cellA [0, 1, -1]).capacity = 0) :=
  ⟨rfl, by norm_num [cellA, calculate_soc_percentage], by simp,
   idle_update_frame cellA [0, 1, -1] rfl
     (by norm_num [cellA, calculate_soc_percentage]) (by simp)⟩

/-- C10 (implicit): starting the task sequence while it is paused is
permitted (the Start button is enabled as soon as the run flag is cleared,
which is all pausing does) and, when tasks exist, always restarts from task
index 0 with a fresh task start time, discarding the paused run's
progress. -/
theorem start_from_paused (s : SessionState) (now : ℤ) (rng : ℕ → ℚ)
    (h : s.tasks_data ≠ []) :
    start_button_enabled (pause_tasks s) = true ∧
    (start_task_sequence (pause_tasks s) now rng).task_running = true ∧
    (start_task_sequence (pause_tasks s) now rng).current_task_index = 0 ∧
    (start_task_sequence (pause_tasks s) now rng).task_start_time = some now := by
  obtain ⟨cells, tasks, r, idx, tstart, hist⟩ := s
  cases tasks with
  | nil => exact absurd rfl h
  | cons t ts => exact ⟨rfl, rfl, rfl, rfl⟩

/-- C10 witness: restarting from a paused mid-sequence session. -/
theorem start_from_paused_witness :
    ({ cells_data := [("cell_1_lfp", cellA)], tasks_data := c2_tasks, task_running := true,
       current_task_index := 1, task_start_time := some 3,
       task_history := [] } : SessionState).tasks_data ≠ [] ∧
    (start_button_enabled (pause_tasks
        { cells_data := [("cell_1_lfp", cellA)], tasks_data := c2_tasks, task_running := true,
          current_task_index := 1, task_start_time := some 3, task_history := [] }) = true ∧
      (start_task_sequence (pause_tasks
          { cells_data := [("cell_1_lfp", cellA)], tasks_data := c2_tasks, task_running := true,
            current_task_index := 1, task_start_time := some 3, task_history := [] })
          7 rng0).task_running = true ∧
      (start_task_sequence (pause_tasks
          { cells_data := [("cell_1_lfp", cellA)], tasks_data := c2_tasks, task_running := true,
            current_task_index := 1, task_start_time := some 3, task_history := [] })
          7 rng0).current_task_index = 0 ∧
      (start_task_sequence (pause_tasks
          { cells_data := [("cell_1_lfp", cellA)], tasks_data := c2_tasks, task_running := true,
            current_task_index := 1, task_start_time := some 3, task_history := [] })
          7 rng0).task_start_time = some 7) := by
  have H := start_from_paused
    { cells_data := [("cell_1_lfp", cellA)], tasks_data := c2_tasks, task_running := true,
      current_task_index := 1, task_start_time := some 3, task_history := [] }
    7 rng0 (by simp [c2_tasks])
  exact ⟨by simp [c2_tasks], H⟩
